import Mathlib

/-!
# Magpie runtime: `App` flags and error slot, `Utils` file probes, `TextureLoader`

A shallow embedding of the parts of `src/Runtime/App.h`, `src/Runtime/Utils.h` and
`src/Runtime/TextureLoader.cpp` that the properties below talk about.

Conventions of the embedding:

* `UINT` / `DWORD` are natural numbers; where the C++ arithmetic can wrap the
  reduction `% 2 ^ 32` is written out.
* `HRESULT` is an integer and `FAILED hr` is `hr < 0`, as in the Windows SDK.
* Pointers and handles are natural numbers, `0` being `NULL` / `nullptr`.
* A `winrt::com_ptr<T>` result is an `Option`: `none` is the null pointer.
* Calls into WIC / Direct3D are answered by an explicit environment record, and
  the calls a function makes are returned next to its result as a list of events.
-/

namespace Magpie

/-- Win32 `UINT` (32-bit unsigned). -/
abbrev UINT := Nat

/-- Win32 `DWORD` (32-bit unsigned). -/
abbrev DWORD := Nat

/-- Win32 `HRESULT` (32-bit signed). -/
abbrev HRESULT := Int

/-- Win32 handles (`HINSTANCE`, `HWND`) and raw pointers; `0` is `NULL`. -/
abbrev HANDLE := Nat

/-- The `FAILED(hr)` test of the Windows SDK: `((HRESULT)(hr)) < 0`. -/
def FAILED (hr : HRESULT) : Bool := decide (hr < 0)

/-- The C++ conversion of an integral value to `bool`: non-zero is `true`. -/
def toBool (x : Nat) : Bool := x != 0

/-- Win32 `RECT`. -/
structure RECT where
  left : Int
  top : Int
  right : Int
  bottom : Int
  deriving DecidableEq, Repr

/-! ## `App` (src/Runtime/App.h) -/

/-- The data members of `class App`. The `float` member is kept as its 32-bit
pattern, the three `std::unique_ptr` members as the addresses they hold. -/
structure App where
  _errorMsg : String
  _hInst : HANDLE
  _hwndSrc : HANDLE
  _hwndHost : HANDLE
  _hwndDDF : HANDLE
  _hostWndRect : RECT
  _cursorZoomFactor : UINT
  _cursorInterpolationMode : UINT
  _adapterIdx : Int
  _multiMonitorUsage : UINT
  _flags : UINT
  _cropBorders : RECT
  _isMultiMonitorMode : Bool
  _windowResizingDisabled : Bool
  _roundCornerDisabled : Bool
  _deviceResources : HANDLE
  _renderer : HANDLE
  _frameSource : HANDLE
  deriving DecidableEq, Repr

namespace App

/-- The default member initialisers of `App`. `ErrorMessages::GENERIC` is declared
outside the three source files, so its value is a parameter. -/
def init (GENERIC : String) : App where
  _errorMsg := GENERIC
  _hInst := 0
  _hwndSrc := 0
  _hwndHost := 0
  _hwndDDF := 0
  _hostWndRect := ⟨0, 0, 0, 0⟩
  _cursorZoomFactor := 0
  _cursorInterpolationMode := 0
  _adapterIdx := 0
  _multiMonitorUsage := 0
  _flags := 0
  _cropBorders := ⟨0, 0, 0, 0⟩
  _isMultiMonitorMode := false
  _windowResizingDisabled := false
  _roundCornerDisabled := false
  _deviceResources := 0
  _renderer := 0
  _frameSource := 0

/-- The enumerators of `enum class _FlagMasks : UINT`. -/
inductive _FlagMasks where
  | NoCursor
  | AdjustCursorSpeed
  | ShowFPS
  | SimulateExclusiveFullscreen
  | DisableLowLatency
  | BreakpointMode
  | DisableWindowResizing
  | DisableDirectFlip
  | ConfineCursorIn3DGames
  | CropTitleBarOfUWP
  | DisableEffectCache
  | DisableVSync
  deriving DecidableEq, Repr

/-- The cast `(UINT)_FlagMasks::X`: the value given to each enumerator. -/
def _FlagMasks.toUINT : _FlagMasks → UINT
  | .NoCursor => 0x1
  | .AdjustCursorSpeed => 0x2
  | .ShowFPS => 0x4
  | .SimulateExclusiveFullscreen => 0x8
  | .DisableLowLatency => 0x10
  | .BreakpointMode => 0x20
  | .DisableWindowResizing => 0x40
  | .DisableDirectFlip => 0x80
  | .ConfineCursorIn3DGames => 0x100
  | .CropTitleBarOfUWP => 0x200
  | .DisableEffectCache => 0x400
  | .DisableVSync => 0x800

/-- All twelve enumerators, in declaration order. -/
def _FlagMasks.all : List _FlagMasks :=
  [.NoCursor, .AdjustCursorSpeed, .ShowFPS, .SimulateExclusiveFullscreen,
   .DisableLowLatency, .BreakpointMode, .DisableWindowResizing, .DisableDirectFlip,
   .ConfineCursorIn3DGames, .CropTitleBarOfUWP, .DisableEffectCache, .DisableVSync]

def IsNoCursor (app : App) : Bool :=
  toBool (app._flags &&& _FlagMasks.NoCursor.toUINT)

def IsAdjustCursorSpeed (app : App) : Bool :=
  toBool (app._flags &&& _FlagMasks.AdjustCursorSpeed.toUINT)

def IsShowFPS (app : App) : Bool :=
  toBool (app._flags &&& _FlagMasks.ShowFPS.toUINT)

def IsDisableLowLatency (app : App) : Bool :=
  toBool (app._flags &&& _FlagMasks.DisableLowLatency.toUINT)

def IsDisableWindowResizing (app : App) : Bool :=
  toBool (app._flags &&& _FlagMasks.DisableWindowResizing.toUINT)

def IsBreakpointMode (app : App) : Bool :=
  toBool (app._flags &&& _FlagMasks.BreakpointMode.toUINT)

def IsDisableDirectFlip (app : App) : Bool :=
  toBool (app._flags &&& _FlagMasks.DisableDirectFlip.toUINT)

def IsConfineCursorIn3DGames (app : App) : Bool :=
  toBool (app._flags &&& _FlagMasks.ConfineCursorIn3DGames.toUINT)

def IsCropTitleBarOfUWP (app : App) : Bool :=
  toBool (app._flags &&& _FlagMasks.CropTitleBarOfUWP.toUINT)

def IsDisableEffectCache (app : App) : Bool :=
  toBool (app._flags &&& _FlagMasks.DisableEffectCache.toUINT)

def IsSimulateExclusiveFullscreen (app : App) : Bool :=
  toBool (app._flags &&& _FlagMasks.SimulateExclusiveFullscreen.toUINT)

def IsDisableVSync (app : App) : Bool :=
  toBool (app._flags &&& _FlagMasks.DisableVSync.toUINT)

def GetErrorMsg (app : App) : String :=
  app._errorMsg

def SetErrorMsg (app : App) (errorMsg : String) : App :=
  { app with _errorMsg := errorMsg }

end App

/-! ## `Utils` (src/Runtime/Utils.h) -/

/-- A `wchar_t`: one UTF-16 code unit. -/
abbrev wchar_t := Nat

/-- A NUL-terminated `const wchar_t*` / a `std::wstring_view`: the code units
before the terminator. -/
abbrev WString := List wchar_t

/-- The wide string literal `L"..."`. -/
def L (s : String) : WString := s.toList.map Char.toNat

namespace Utils

/-- Modelled from the spec: the Windows SDK constant `INVALID_FILE_ATTRIBUTES`,
`((DWORD)-1)` in fileapi.h, which the sources use but do not declare. -/
def INVALID_FILE_ATTRIBUTES : DWORD := 0xFFFFFFFF

/-- Modelled from the spec: the Windows SDK constant `FILE_ATTRIBUTE_DIRECTORY`
(the directory bit of an attribute word, `0x10` in winnt.h), which the sources use but
do not declare. -/
def FILE_ATTRIBUTE_DIRECTORY : DWORD := 0x00000010

def FileExists (GetFileAttributesW : WString → DWORD) (fileName : WString) : Bool :=
  let attrs := GetFileAttributesW fileName
  (attrs != INVALID_FILE_ATTRIBUTES) && !(toBool (attrs &&& FILE_ATTRIBUTE_DIRECTORY))

def DirExists (GetFileAttributesW : WString → DWORD) (fileName : WString) : Bool :=
  let attrs := GetFileAttributesW fileName
  (attrs != INVALID_FILE_ATTRIBUTES) && toBool (attrs &&& FILE_ATTRIBUTE_DIRECTORY)

end Utils

/-! ## `TextureLoader` (src/Runtime/TextureLoader.cpp) -/

/-- The COM object behind an `ID3D11Resource*`, named by its address. -/
abbrev ID3D11Resource := Nat

/-- The COM object behind an `ID3D11Texture2D*`, named by its address. -/
abbrev ID3D11Texture2D := Nat

/-- The values of `WICPixelFormatNumericRepresentation` (wincodec.h). -/
inductive WICPixelFormatNumericRepresentation where
  | WICPixelFormatNumericRepresentationUnspecified
  | WICPixelFormatNumericRepresentationIndexed
  | WICPixelFormatNumericRepresentationUnsignedInteger
  | WICPixelFormatNumericRepresentationSignedInteger
  | WICPixelFormatNumericRepresentationFixed
  | WICPixelFormatNumericRepresentationFloat
  deriving DecidableEq, Repr

/-- The two WIC pixel formats `LoadImg` converts to. -/
inductive WICPixelFormatGUID where
  | GUID_WICPixelFormat64bppRGBAHalf
  | GUID_WICPixelFormat32bppBGRA
  deriving DecidableEq, Repr

/-- The two DXGI formats `LoadImg` creates textures in. -/
inductive DXGI_FORMAT where
  | DXGI_FORMAT_R16G16B16A16_FLOAT
  | DXGI_FORMAT_B8G8R8A8_UNORM
  deriving DecidableEq, Repr

/-- A `D3D_FEATURE_LEVEL` value. -/
abbrev D3D_FEATURE_LEVEL := Nat

/-- Modelled from the spec: the Direct3D SDK enumerator `D3D_FEATURE_LEVEL_10_0`
(`0xa000` in d3dcommon.h), which the sources use but do not declare. -/
def D3D_FEATURE_LEVEL_10_0 : D3D_FEATURE_LEVEL := 0xa000

/-- Modelled from the spec: the Direct3D SDK enumerator `D3D_FEATURE_LEVEL_10_1`
(`0xa100` in d3dcommon.h), which the sources use but do not declare. -/
def D3D_FEATURE_LEVEL_10_1 : D3D_FEATURE_LEVEL := 0xa100

/-- Modelled from the spec: the Direct3D SDK constant
`D3D11_REQ_TEXTURE2D_U_OR_V_DIMENSION` (16384), which the sources use but do not declare. -/
def D3D11_REQ_TEXTURE2D_U_OR_V_DIMENSION : UINT := 16384

/-- Modelled from the spec: the Direct3D SDK flag `D3D11_BIND_SHADER_RESOURCE`,
which the sources use but do not declare. -/
def D3D11_BIND_SHADER_RESOURCE : UINT := 0x8

/-- Modelled from the spec: the Direct3D SDK flag `D3D11_BIND_RENDER_TARGET`,
which the sources use but do not declare. -/
def D3D11_BIND_RENDER_TARGET : UINT := 0x20

/-- Modelled from the spec: the Direct3D SDK enumerator `D3D11_USAGE_DEFAULT`,
which the sources use but do not declare. -/
def D3D11_USAGE_DEFAULT : UINT := 0

/-- The fields of `D3D11_TEXTURE2D_DESC` (`SampleDesc` flattened). -/
structure D3D11_TEXTURE2D_DESC where
  Width : UINT
  Height : UINT
  MipLevels : UINT
  ArraySize : UINT
  Format : DXGI_FORMAT
  SampleDesc_Count : UINT
  SampleDesc_Quality : UINT
  Usage : UINT
  BindFlags : UINT
  CPUAccessFlags : UINT
  MiscFlags : UINT
  deriving DecidableEq, Repr

/-- What WIC and Direct3D answer to the calls of one `LoadImg` run. A call with
out-parameters answers with its `HRESULT` and the values written. -/
structure ImgEnv where
  /-- whether `App::GetWICImageFactory` returns a non-null factory -/
  GetWICImageFactory : Bool
  CreateDecoderFromFilename : WString → HRESULT
  GetFrame : HRESULT
  GetPixelFormat : HRESULT
  CreateComponentInfo : HRESULT
  /-- whether `cInfo.try_as<IWICPixelFormatInfo2>()` is non-null -/
  try_as_IWICPixelFormatInfo2 : Bool
  GetBitsPerPixel : HRESULT × UINT
  GetNumericRepresentation : HRESULT × WICPixelFormatNumericRepresentation
  CreateFormatConverter : HRESULT
  Initialize : WICPixelFormatGUID → HRESULT
  /-- the `HRESULT`, then `width`, then `height` -/
  GetSize : HRESULT × UINT × UINT
  GetFeatureLevel : D3D_FEATURE_LEVEL
  /-- answer to `CopyPixels(nullptr, stride, size, buf)` -/
  CopyPixels : UINT → UINT → HRESULT
  /-- answer to `CreateTexture2D(&desc, &initData, ..)`, given `desc` and `initData.SysMemPitch` -/
  CreateTexture2D : D3D11_TEXTURE2D_DESC → UINT → HRESULT × Option ID3D11Texture2D

/-- The external calls and the allocation made by `LoadImg`, in program order. -/
inductive ImgEvent where
  | GetWICImageFactory
  | CreateDecoderFromFilename (fileName : WString)
  | GetFrame
  | GetPixelFormat
  | CreateComponentInfo
  | try_as_IWICPixelFormatInfo2
  | GetBitsPerPixel
  | GetNumericRepresentation
  | CreateFormatConverter
  | Initialize (targetFormat : WICPixelFormatGUID)
  | GetSize
  | GetFeatureLevel
  /-- the allocation `new BYTE[size]` -/
  | newBYTE (size : UINT)
  | CopyPixels (stride size : UINT)
  | CreateTexture2D (desc : D3D11_TEXTURE2D_DESC) (SysMemPitch : UINT)
  deriving DecidableEq, Repr

/-- The `switch` on the feature level in `LoadImg` (lines 92-105): `true` when the
branch taken logs the size error and returns `nullptr`. -/
def LoadImg.sizeOverLimit (featureLevel : D3D_FEATURE_LEVEL) (width height : UINT) : Bool :=
  if featureLevel = D3D_FEATURE_LEVEL_10_0 ∨ featureLevel = D3D_FEATURE_LEVEL_10_1 then
    decide (width > 8192) || decide (height > 8192)
  else
    decide (width > D3D11_REQ_TEXTURE2D_U_OR_V_DIMENSION)
      || decide (height > D3D11_REQ_TEXTURE2D_U_OR_V_DIMENSION)

/-- The assignment to `useFloatFormat` (line 66). -/
def LoadImg.useFloatFormat (bitsPerPixel : UINT)
    (type : WICPixelFormatNumericRepresentation) : Bool :=
  decide (bitsPerPixel > 32)
    || decide (type = .WICPixelFormatNumericRepresentationFixed)
    || decide (type = .WICPixelFormatNumericRepresentationFloat)

/-- The 32-bit computation `UINT stride = width * (useFloatFormat ? 8 : 4)` (line 107). -/
def LoadImg.stride (width : UINT) (useFloatFormat : Bool) : UINT :=
  (width * (if useFloatFormat then 8 else 4)) % 2 ^ 32

/-- The 32-bit computation `UINT size = stride * height` (line 108). -/
def LoadImg.size (stride height : UINT) : UINT :=
  (stride * height) % 2 ^ 32

/-- The function `LoadImg`: its return value (`none` is `nullptr`) and the calls it made.
Each `if ... then (none, tr)` is one `return nullptr` of the source; `new BYTE[size]` is
recorded and taken to succeed. -/
def LoadImg (env : ImgEnv) (fileName : WString) : Option ID3D11Texture2D × List ImgEvent :=
  let tr := [ImgEvent.GetWICImageFactory]
  if !env.GetWICImageFactory then (none, tr) else
  let tr := tr ++ [.CreateDecoderFromFilename fileName]
  if FAILED (env.CreateDecoderFromFilename fileName) then (none, tr) else
  let tr := tr ++ [.GetFrame]
  if FAILED env.GetFrame then (none, tr) else
  let tr := tr ++ [.GetPixelFormat]
  if FAILED env.GetPixelFormat then (none, tr) else
  let tr := tr ++ [.CreateComponentInfo]
  if FAILED env.CreateComponentInfo then (none, tr) else
  let tr := tr ++ [.try_as_IWICPixelFormatInfo2]
  if !env.try_as_IWICPixelFormatInfo2 then (none, tr) else
  let tr := tr ++ [.GetBitsPerPixel]
  let bitsPerPixel := env.GetBitsPerPixel.2
  if FAILED env.GetBitsPerPixel.1 then (none, tr) else
  let tr := tr ++ [.GetNumericRepresentation]
  let type := env.GetNumericRepresentation.2
  if FAILED env.GetNumericRepresentation.1 then (none, tr) else
  let useFloatFormat := LoadImg.useFloatFormat bitsPerPixel type
  let tr := tr ++ [.CreateFormatConverter]
  if FAILED env.CreateFormatConverter then (none, tr) else
  let targetFormat :=
    if useFloatFormat then WICPixelFormatGUID.GUID_WICPixelFormat64bppRGBAHalf
    else WICPixelFormatGUID.GUID_WICPixelFormat32bppBGRA
  let tr := tr ++ [.Initialize targetFormat]
  if FAILED (env.Initialize targetFormat) then (none, tr) else
  let tr := tr ++ [.GetSize]
  let width := env.GetSize.2.1
  let height := env.GetSize.2.2
  if FAILED env.GetSize.1 then (none, tr) else
  let tr := tr ++ [.GetFeatureLevel]
  if LoadImg.sizeOverLimit env.GetFeatureLevel width height then (none, tr) else
  let stride := LoadImg.stride width useFloatFormat
  let size := LoadImg.size stride height
  let tr := tr ++ [.newBYTE size]
  let tr := tr ++ [.CopyPixels stride size]
  if FAILED (env.CopyPixels stride size) then (none, tr) else
  let desc : D3D11_TEXTURE2D_DESC :=
    { Width := width
      Height := height
      MipLevels := 1
      ArraySize := 1
      Format :=
        if useFloatFormat then DXGI_FORMAT.DXGI_FORMAT_R16G16B16A16_FLOAT
        else DXGI_FORMAT.DXGI_FORMAT_B8G8R8A8_UNORM
      SampleDesc_Count := 1
      SampleDesc_Quality := 0
      Usage := D3D11_USAGE_DEFAULT
      BindFlags := D3D11_BIND_SHADER_RESOURCE ||| D3D11_BIND_RENDER_TARGET
      CPUAccessFlags := 0
      MiscFlags := 0 }
  let tr := tr ++ [.CreateTexture2D desc stride]
  let result := (env.CreateTexture2D desc stride).2
  if FAILED (env.CreateTexture2D desc stride).1 then (none, tr) else
  (result, tr)

/-- What DirectXTK and COM answer to the calls of one `LoadDDS` run. -/
structure DDSEnv where
  /-- answer to `CreateDDSTextureFromFileEx(device, fileName, 0, D3D11_USAGE_DEFAULT,
  bindFlags, 0, 0, false, result.put(), nullptr, &alphaMode)`: the `HRESULT` and the
  resource left in `result` -/
  CreateDDSTextureFromFileEx : WString → UINT → HRESULT × Option ID3D11Resource
  /-- the conversion `try_as<ID3D11Texture2D>()` of a non-null resource -/
  try_as_ID3D11Texture2D : ID3D11Resource → Option ID3D11Texture2D

/-- The external calls made by `LoadDDS`, in program order. -/
inductive DDSEvent where
  | CreateDDSTextureFromFileEx (fileName : WString) (bindFlags : UINT)
  | try_as_ID3D11Texture2D
  deriving DecidableEq, Repr

/-- The function `LoadDDS`: its return value (`none` is `nullptr`) and the calls it made.
`first.2` / `second.2` is what the call left in `result`; `try_as` of a null `result` is
null. -/
def LoadDDS (env : DDSEnv) (fileName : WString) : Option ID3D11Texture2D × List DDSEvent :=
  let bind1 := D3D11_BIND_SHADER_RESOURCE ||| D3D11_BIND_RENDER_TARGET
  let tr := [DDSEvent.CreateDDSTextureFromFileEx fileName bind1]
  let first := env.CreateDDSTextureFromFileEx fileName bind1
  if FAILED first.1 then
    let bind2 := D3D11_BIND_SHADER_RESOURCE
    let tr := tr ++ [.CreateDDSTextureFromFileEx fileName bind2]
    let second := env.CreateDDSTextureFromFileEx fileName bind2
    if FAILED second.1 then (none, tr) else
    let tr := tr ++ [.try_as_ID3D11Texture2D]
    (second.2.bind env.try_as_ID3D11Texture2D, tr)
  else
    let tr := tr ++ [.try_as_ID3D11Texture2D]
    (first.2.bind env.try_as_ID3D11Texture2D, tr)

namespace TextureLoader

/-- The call `std::wstring_view::find_last_of(ch)`: the index of the last occurrence
of `ch`, `none` standing for `npos`. `go` scans left to right, `i` being the index of
the head and `acc` the last occurrence seen so far. -/
def find_last_of.go (ch : wchar_t) : WString → Nat → Option Nat → Option Nat
  | [], _, acc => acc
  | c :: cs, i, acc => find_last_of.go ch cs (i + 1) (if c = ch then some i else acc)

def find_last_of (sv : WString) (ch : wchar_t) : Option Nat :=
  find_last_of.go ch sv 0 none

/-- The call `std::wstring_view::substr(pos)` for `pos <= size()`. -/
def substr (sv : WString) (pos : Nat) : WString :=
  sv.drop pos

/-- The two function pointers stored in `funcs`. -/
inductive LoaderFn where
  | LoadImg
  | LoadDDS
  deriving DecidableEq, Repr

/-- The static table `funcs` of `TextureLoader::Load`. -/
def funcs : List (WString × LoaderFn) :=
  [ (L "bmp", .LoadImg),
    (L "jpg", .LoadImg),
    (L "jpeg", .LoadImg),
    (L "png", .LoadImg),
    (L "tif", .LoadImg),
    (L "tiff", .LoadImg),
    (L "dds", .LoadDDS) ]

/-- The lookup `funcs.find(suffix)`: the entry whose key equals `suffix`, `none`
standing for `funcs.end()`. -/
def funcs_find (suffix : WString) : Option (WString × LoaderFn) :=
  funcs.find? (fun kv => decide (kv.1 = suffix))

/-- An invocation of a loader by `Load`, with the argument passed and the calls the
loader made in turn. -/
inductive LoadEvent where
  | LoadImg (fileName : WString) (calls : List ImgEvent)
  | LoadDDS (fileName : WString) (calls : List DDSEvent)
  deriving DecidableEq, Repr

/-- The call `it->second(fileName)` through the stored function pointer. -/
def invoke (imgEnv : ImgEnv) (ddsEnv : DDSEnv) (fn : LoaderFn) (fileName : WString) :
    Option ID3D11Texture2D × List LoadEvent :=
  match fn with
  | .LoadImg => ((LoadImg imgEnv fileName).1, [.LoadImg fileName (LoadImg imgEnv fileName).2])
  | .LoadDDS => ((LoadDDS ddsEnv fileName).1, [.LoadDDS fileName (LoadDDS ddsEnv fileName).2])

/-- The function `TextureLoader::Load`: its return value (`none` is `nullptr`) and the
loader invocations it made. -/
def Load (imgEnv : ImgEnv) (ddsEnv : DDSEnv) (fileName : WString) :
    Option ID3D11Texture2D × List LoadEvent :=
  let sv := fileName
  match find_last_of sv (Char.toNat '.') with
  | none => (none, [])
  | some npos =>
    let suffix := substr sv (npos + 1)
    match funcs_find suffix with
    | none => (none, [])
    | some it => invoke imgEnv ddsEnv it.2 fileName

end TextureLoader

/-! ## Sample environments -/

/-- A run in which every call succeeds on a 640 x 480 image with 32 bits per pixel in
an unsigned-integer format, on a feature level 11_0 device; the texture created is `1`. -/
def sampleImgEnv : ImgEnv where
  GetWICImageFactory := true
  CreateDecoderFromFilename := fun _ => 0
  GetFrame := 0
  GetPixelFormat := 0
  CreateComponentInfo := 0
  try_as_IWICPixelFormatInfo2 := true
  GetBitsPerPixel := (0, 32)
  GetNumericRepresentation := (0, .WICPixelFormatNumericRepresentationUnsignedInteger)
  CreateFormatConverter := 0
  Initialize := fun _ => 0
  GetSize := (0, 640, 480)
  GetFeatureLevel := 0xb000
  CopyPixels := fun _ _ => 0
  CreateTexture2D := fun _ _ => (0, some 1)

/-- The run of `sampleImgEnv` on a device of the given feature level and an image of
the given size. -/
def sampleImgEnvOfSize (featureLevel : D3D_FEATURE_LEVEL) (width height : UINT) : ImgEnv :=
  { sampleImgEnv with GetFeatureLevel := featureLevel, GetSize := (0, width, height) }

/-- A run in which the creation with `SHADER_RESOURCE | RENDER_TARGET` fails with
`E_INVALIDARG`, the creation with `SHADER_RESOURCE` alone yields the resource `7`, and
every resource converts to a 2-D texture of the same address. -/
def sampleDDSEnv : DDSEnv where
  CreateDDSTextureFromFileEx := fun _ bindFlags =>
    if bindFlags = 0x28 then (-2147024809, none) else (0, some 7)
  try_as_ID3D11Texture2D := fun r => some r

/-! ## Helper lemmas on single-bit masks -/

theorem toBool_and_two_pow (f i : Nat) : toBool (f &&& 2 ^ i) = f.testBit i := by
  unfold toBool
  rw [Nat.and_two_pow]
  cases h : f.testBit i <;> simp

theorem testBit_and_4095 (f i : Nat) (hi : i < 12) :
    (f &&& 0xFFF).testBit i = f.testBit i := by
  have h : (0xFFF : Nat) = 2 ^ 12 - 1 := by norm_num
  rw [Nat.testBit_and, h, Nat.testBit_two_pow_sub_one]
  simp [hi]

theorem testBit_bit_lt (b : Bool) (n k : Nat) (h : n < k) : Nat.bit b n < 2 * k := by
  cases b <;> simp [Nat.bit_val] <;> omega

/-! ## `App`: flag accessors -/

/-- C1. Every flag accessor returns exactly the bit of `_flags` selected by its own
mask (`IsNoCursor` bit 0, ..., `IsDisableVSync` bit 11); the twelve masks are the
pairwise distinct single bits `2^0 .. 2^11`; every one of the 4096 on/off
combinations is produced by some flags value below `0x1000`; and flags `0` makes all
twelve accessors false. -/
theorem App.flag_accessors_read_own_mask_bit (app : App) :
    (app.IsNoCursor = app._flags.testBit 0
      ∧ app.IsAdjustCursorSpeed = app._flags.testBit 1
      ∧ app.IsShowFPS = app._flags.testBit 2
      ∧ app.IsSimulateExclusiveFullscreen = app._flags.testBit 3
      ∧ app.IsDisableLowLatency = app._flags.testBit 4
      ∧ app.IsBreakpointMode = app._flags.testBit 5
      ∧ app.IsDisableWindowResizing = app._flags.testBit 6
      ∧ app.IsDisableDirectFlip = app._flags.testBit 7
      ∧ app.IsConfineCursorIn3DGames = app._flags.testBit 8
      ∧ app.IsCropTitleBarOfUWP = app._flags.testBit 9
      ∧ app.IsDisableEffectCache = app._flags.testBit 10
      ∧ app.IsDisableVSync = app._flags.testBit 11)
    ∧ (App._FlagMasks.all.map App._FlagMasks.toUINT
        = [0x1, 0x2, 0x4, 0x8, 0x10, 0x20, 0x40, 0x80, 0x100, 0x200, 0x400, 0x800]
      ∧ App._FlagMasks.all.map App._FlagMasks.toUINT = (List.range 12).map (fun i => 2 ^ i)
      ∧ (App._FlagMasks.all.map App._FlagMasks.toUINT).Nodup
      ∧ ∀ m : App._FlagMasks, m ∈ App._FlagMasks.all)
    ∧ (∀ b0 b1 b2 b3 b4 b5 b6 b7 b8 b9 b10 b11 : Bool, ∃ f : UINT, f < 0x1000
      ∧ App.IsNoCursor { app with _flags := f } = b0
      ∧ App.IsAdjustCursorSpeed { app with _flags := f } = b1
      ∧ App.IsShowFPS { app with _flags := f } = b2
      ∧ App.IsSimulateExclusiveFullscreen { app with _flags := f } = b3
      ∧ App.IsDisableLowLatency { app with _flags := f } = b4
      ∧ App.IsBreakpointMode { app with _flags := f } = b5
      ∧ App.IsDisableWindowResizing { app with _flags := f } = b6
      ∧ App.IsDisableDirectFlip { app with _flags := f } = b7
      ∧ App.IsConfineCursorIn3DGames { app with _flags := f } = b8
      ∧ App.IsCropTitleBarOfUWP { app with _flags := f } = b9
      ∧ App.IsDisableEffectCache { app with _flags := f } = b10
      ∧ App.IsDisableVSync { app with _flags := f } = b11)
    ∧ (App.IsNoCursor { app with _flags := 0 } = false
      ∧ App.IsAdjustCursorSpeed { app with _flags := 0 } = false
      ∧ App.IsShowFPS { app with _flags := 0 } = false
      ∧ App.IsSimulateExclusiveFullscreen { app with _flags := 0 } = false
      ∧ App.IsDisableLowLatency { app with _flags := 0 } = false
      ∧ App.IsBreakpointMode { app with _flags := 0 } = false
      ∧ App.IsDisableWindowResizing { app with _flags := 0 } = false
      ∧ App.IsDisableDirectFlip { app with _flags := 0 } = false
      ∧ App.IsConfineCursorIn3DGames { app with _flags := 0 } = false
      ∧ App.IsCropTitleBarOfUWP { app with _flags := 0 } = false
      ∧ App.IsDisableEffectCache { app with _flags := 0 } = false
      ∧ App.IsDisableVSync { app with _flags := 0 } = false) := by
  have key : ∀ a : App,
      a.IsNoCursor = a._flags.testBit 0
      ∧ a.IsAdjustCursorSpeed = a._flags.testBit 1
      ∧ a.IsShowFPS = a._flags.testBit 2
      ∧ a.IsSimulateExclusiveFullscreen = a._flags.testBit 3
      ∧ a.IsDisableLowLatency = a._flags.testBit 4
      ∧ a.IsBreakpointMode = a._flags.testBit 5
      ∧ a.IsDisableWindowResizing = a._flags.testBit 6
      ∧ a.IsDisableDirectFlip = a._flags.testBit 7
      ∧ a.IsConfineCursorIn3DGames = a._flags.testBit 8
      ∧ a.IsCropTitleBarOfUWP = a._flags.testBit 9
      ∧ a.IsDisableEffectCache = a._flags.testBit 10
      ∧ a.IsDisableVSync = a._flags.testBit 11 := by
    intro a
    refine ⟨?_, ?_, ?_, ?_, ?_, ?_, ?_, ?_, ?_, ?_, ?_, ?_⟩
    · exact toBool_and_two_pow a._flags 0
    · exact toBool_and_two_pow a._flags 1
    · exact toBool_and_two_pow a._flags 2
    · exact toBool_and_two_pow a._flags 3
    · exact toBool_and_two_pow a._flags 4
    · exact toBool_and_two_pow a._flags 5
    · exact toBool_and_two_pow a._flags 6
    · exact toBool_and_two_pow a._flags 7
    · exact toBool_and_two_pow a._flags 8
    · exact toBool_and_two_pow a._flags 9
    · exact toBool_and_two_pow a._flags 10
    · exact toBool_and_two_pow a._flags 11
  refine ⟨key app, ⟨by decide, by decide, by decide, ?_⟩, ?_, ?_⟩
  · intro m
    cases m <;> decide
  · intro b0 b1 b2 b3 b4 b5 b6 b7 b8 b9 b10 b11
    refine ⟨Nat.bit b0 (Nat.bit b1 (Nat.bit b2 (Nat.bit b3 (Nat.bit b4 (Nat.bit b5
      (Nat.bit b6 (Nat.bit b7 (Nat.bit b8 (Nat.bit b9 (Nat.bit b10 (Nat.bit b11 0))))))))))),
      ?_, ?_⟩
    · have h0 : (0 : Nat) < 1 := Nat.one_pos
      have h11 := testBit_bit_lt b11 _ _ h0
      have h10 := testBit_bit_lt b10 _ _ h11
      have h9 := testBit_bit_lt b9 _ _ h10
      have h8 := testBit_bit_lt b8 _ _ h9
      have h7 := testBit_bit_lt b7 _ _ h8
      have h6 := testBit_bit_lt b6 _ _ h7
      have h5 := testBit_bit_lt b5 _ _ h6
      have h4 := testBit_bit_lt b4 _ _ h5
      have h3 := testBit_bit_lt b3 _ _ h4
      have h2 := testBit_bit_lt b2 _ _ h3
      have h1 := testBit_bit_lt b1 _ _ h2
      have h := testBit_bit_lt b0 _ _ h1
      exact Nat.lt_of_lt_of_le h (by decide)
    · have h := key { app with _flags := Nat.bit b0 (Nat.bit b1 (Nat.bit b2 (Nat.bit b3
        (Nat.bit b4 (Nat.bit b5 (Nat.bit b6 (Nat.bit b7 (Nat.bit b8 (Nat.bit b9
        (Nat.bit b10 (Nat.bit b11 0))))))))))) }
      simp only [Nat.testBit_bit_succ, Nat.testBit_bit_zero] at h
      exact h
  · have h := key { app with _flags := 0 }
    simpa using h

/-- C4. Two flags values that agree on the low twelve bits give the same answer from
every one of the twelve accessors; every mask of `_FlagMasks` lies below `0x1000`, and
each accessor gives the same answer after the bits from `0x1000` upward are cleared. -/
theorem App.flag_accessors_ignore_high_bits (app app' : App)
    (h : app._flags &&& 0xFFF = app'._flags &&& 0xFFF) :
    (app.IsNoCursor = app'.IsNoCursor
      ∧ app.IsAdjustCursorSpeed = app'.IsAdjustCursorSpeed
      ∧ app.IsShowFPS = app'.IsShowFPS
      ∧ app.IsSimulateExclusiveFullscreen = app'.IsSimulateExclusiveFullscreen
      ∧ app.IsDisableLowLatency = app'.IsDisableLowLatency
      ∧ app.IsBreakpointMode = app'.IsBreakpointMode
      ∧ app.IsDisableWindowResizing = app'.IsDisableWindowResizing
      ∧ app.IsDisableDirectFlip = app'.IsDisableDirectFlip
      ∧ app.IsConfineCursorIn3DGames = app'.IsConfineCursorIn3DGames
      ∧ app.IsCropTitleBarOfUWP = app'.IsCropTitleBarOfUWP
      ∧ app.IsDisableEffectCache = app'.IsDisableEffectCache
      ∧ app.IsDisableVSync = app'.IsDisableVSync)
    ∧ (∀ m : App._FlagMasks, m.toUINT < 0x1000 ∧ m.toUINT &&& 0xFFF = m.toUINT) := by
  have bit : ∀ i, i < 12 → app._flags.testBit i = app'._flags.testBit i := by
    intro i hi
    rw [← testBit_and_4095 app._flags i hi, ← testBit_and_4095 app'._flags i hi, h]
  refine ⟨⟨?_, ?_, ?_, ?_, ?_, ?_, ?_, ?_, ?_, ?_, ?_, ?_⟩, ?_⟩
  · exact (toBool_and_two_pow _ 0).trans ((bit 0 (by decide)).trans (toBool_and_two_pow _ 0).symm)
  · exact (toBool_and_two_pow _ 1).trans ((bit 1 (by decide)).trans (toBool_and_two_pow _ 1).symm)
  · exact (toBool_and_two_pow _ 2).trans ((bit 2 (by decide)).trans (toBool_and_two_pow _ 2).symm)
  · exact (toBool_and_two_pow _ 3).trans ((bit 3 (by decide)).trans (toBool_and_two_pow _ 3).symm)
  · exact (toBool_and_two_pow _ 4).trans ((bit 4 (by decide)).trans (toBool_and_two_pow _ 4).symm)
  · exact (toBool_and_two_pow _ 5).trans ((bit 5 (by decide)).trans (toBool_and_two_pow _ 5).symm)
  · exact (toBool_and_two_pow _ 6).trans ((bit 6 (by decide)).trans (toBool_and_two_pow _ 6).symm)
  · exact (toBool_and_two_pow _ 7).trans ((bit 7 (by decide)).trans (toBool_and_two_pow _ 7).symm)
  · exact (toBool_and_two_pow _ 8).trans ((bit 8 (by decide)).trans (toBool_and_two_pow _ 8).symm)
  · exact (toBool_and_two_pow _ 9).trans ((bit 9 (by decide)).trans (toBool_and_two_pow _ 9).symm)
  · exact (toBool_and_two_pow _ 10).trans
      ((bit 10 (by decide)).trans (toBool_and_two_pow _ 10).symm)
  · exact (toBool_and_two_pow _ 11).trans
      ((bit 11 (by decide)).trans (toBool_and_two_pow _ 11).symm)
  · intro m
    cases m <;> decide

/-- Witness for C4: flags `0xF005` and `0x0005` agree on the low twelve bits. -/
theorem App.flag_accessors_ignore_high_bits_witness :
    ({ App.init "" with _flags := 0xF005 } : App)._flags &&& 0xFFF
        = ({ App.init "" with _flags := 0x5 } : App)._flags &&& 0xFFF
      ∧ App.IsShowFPS { App.init "" with _flags := 0xF005 }
        = App.IsShowFPS { App.init "" with _flags := 0x5 }
      ∧ App.IsShowFPS { App.init "" with _flags := 0xF005 } = true :=
  ⟨by decide,
   (App.flag_accessors_ignore_high_bits { App.init "" with _flags := 0xF005 }
      { App.init "" with _flags := 0x5 } (by decide)).1.2.2.1,
   by decide⟩

/-! ## `App`: the error message slot -/

/-- C2. A freshly constructed `App` reports `ErrorMessages::GENERIC`; after any
sequence of `SetErrorMsg` calls ending in `m`, `GetErrorMsg` returns `m`; and a sequence
of `SetErrorMsg` calls leaves every other member of `App` as it was. -/
theorem App.error_msg_latest_wins (GENERIC : String) (app : App) (ms : List String)
    (m : String) :
    (App.init GENERIC).GetErrorMsg = GENERIC
    ∧ ((ms ++ [m]).foldl App.SetErrorMsg app).GetErrorMsg = m
    ∧ (app.SetErrorMsg m).GetErrorMsg = m
    ∧ ((ms.foldl App.SetErrorMsg app)._hInst = app._hInst
      ∧ (ms.foldl App.SetErrorMsg app)._hwndSrc = app._hwndSrc
      ∧ (ms.foldl App.SetErrorMsg app)._hwndHost = app._hwndHost
      ∧ (ms.foldl App.SetErrorMsg app)._hwndDDF = app._hwndDDF
      ∧ (ms.foldl App.SetErrorMsg app)._hostWndRect = app._hostWndRect
      ∧ (ms.foldl App.SetErrorMsg app)._cursorZoomFactor = app._cursorZoomFactor
      ∧ (ms.foldl App.SetErrorMsg app)._cursorInterpolationMode = app._cursorInterpolationMode
      ∧ (ms.foldl App.SetErrorMsg app)._adapterIdx = app._adapterIdx
      ∧ (ms.foldl App.SetErrorMsg app)._multiMonitorUsage = app._multiMonitorUsage
      ∧ (ms.foldl App.SetErrorMsg app)._flags = app._flags
      ∧ (ms.foldl App.SetErrorMsg app)._cropBorders = app._cropBorders
      ∧ (ms.foldl App.SetErrorMsg app)._isMultiMonitorMode = app._isMultiMonitorMode
      ∧ (ms.foldl App.SetErrorMsg app)._windowResizingDisabled = app._windowResizingDisabled
      ∧ (ms.foldl App.SetErrorMsg app)._roundCornerDisabled = app._roundCornerDisabled
      ∧ (ms.foldl App.SetErrorMsg app)._deviceResources = app._deviceResources
      ∧ (ms.foldl App.SetErrorMsg app)._renderer = app._renderer
      ∧ (ms.foldl App.SetErrorMsg app)._frameSource = app._frameSource) := by
  refine ⟨rfl, ?_, rfl, ?_⟩
  · rw [List.foldl_append]
    rfl
  · induction ms generalizing app with
    | nil => simp
    | cons x xs ih =>
      have h := ih (app.SetErrorMsg x)
      simpa [List.foldl_cons, App.SetErrorMsg] using h

/-! ## `Utils`: file and directory probes -/

/-- C7. With `a` the attribute word `GetFileAttributesW` returns for the path:
`FileExists` holds iff `a` is not `INVALID_FILE_ATTRIBUTES` and the directory bit of `a`
is clear, `DirExists` iff `a` is not `INVALID_FILE_ATTRIBUTES` and that bit is set; the
two are never both true, exactly one is true when `a` is valid, and both are false for
`INVALID_FILE_ATTRIBUTES = 0xFFFFFFFF`, whose directory bit is set. -/
theorem Utils.FileExists_DirExists_by_attributes (GetFileAttributesW : WString → DWORD)
    (fileName : WString) :
    (Utils.FileExists GetFileAttributesW fileName = true ↔
        GetFileAttributesW fileName ≠ Utils.INVALID_FILE_ATTRIBUTES
          ∧ GetFileAttributesW fileName &&& Utils.FILE_ATTRIBUTE_DIRECTORY = 0)
    ∧ (Utils.DirExists GetFileAttributesW fileName = true ↔
        GetFileAttributesW fileName ≠ Utils.INVALID_FILE_ATTRIBUTES
          ∧ GetFileAttributesW fileName &&& Utils.FILE_ATTRIBUTE_DIRECTORY ≠ 0)
    ∧ (Utils.FILE_ATTRIBUTE_DIRECTORY = 2 ^ 4
        ∧ (GetFileAttributesW fileName &&& Utils.FILE_ATTRIBUTE_DIRECTORY = 0 ↔
            (GetFileAttributesW fileName).testBit 4 = false))
    ∧ ¬ (Utils.FileExists GetFileAttributesW fileName = true
          ∧ Utils.DirExists GetFileAttributesW fileName = true)
    ∧ (GetFileAttributesW fileName ≠ Utils.INVALID_FILE_ATTRIBUTES →
        Utils.FileExists GetFileAttributesW fileName
          = !Utils.DirExists GetFileAttributesW fileName)
    ∧ (GetFileAttributesW fileName = Utils.INVALID_FILE_ATTRIBUTES →
        Utils.FileExists GetFileAttributesW fileName = false
          ∧ Utils.DirExists GetFileAttributesW fileName = false)
    ∧ (Utils.INVALID_FILE_ATTRIBUTES = 0xFFFFFFFF
        ∧ Utils.INVALID_FILE_ATTRIBUTES &&& Utils.FILE_ATTRIBUTE_DIRECTORY ≠ 0) := by
  have hbit : (GetFileAttributesW fileName &&& Utils.FILE_ATTRIBUTE_DIRECTORY = 0 ↔
      (GetFileAttributesW fileName).testBit 4 = false) := by
    have h := toBool_and_two_pow (GetFileAttributesW fileName) 4
    unfold toBool at h
    have h16 : Utils.FILE_ATTRIBUTE_DIRECTORY = 2 ^ 4 := by decide
    rw [h16, ← h]
    simp
  refine ⟨?_, ?_, ⟨by decide, hbit⟩, ?_, ?_, ?_, by decide, by decide⟩
  · simp [Utils.FileExists, toBool]
  · simp [Utils.DirExists, toBool]
  · simp only [Utils.FileExists, Utils.DirExists, toBool]
    cases (GetFileAttributesW fileName &&& Utils.FILE_ATTRIBUTE_DIRECTORY != 0) <;> simp
  · intro hv
    simp only [Utils.FileExists, Utils.DirExists, toBool]
    cases (GetFileAttributesW fileName &&& Utils.FILE_ATTRIBUTE_DIRECTORY != 0) <;> simp [hv]
  · intro hv
    simp [Utils.FileExists, Utils.DirExists, hv]

/-- Witness for C7: a plain file (`FILE_ATTRIBUTE_ARCHIVE`, `0x20`), a directory
(`0x10`) and a missing path (`0xFFFFFFFF`). -/
theorem Utils.FileExists_DirExists_by_attributes_witness :
    (Utils.FileExists (fun _ => 0x20) (L "a.png") = true
      ∧ Utils.DirExists (fun _ => 0x20) (L "a.png") = false)
    ∧ (Utils.FileExists (fun _ => 0x10) (L "dir") = false
      ∧ Utils.DirExists (fun _ => 0x10) (L "dir") = true)
    ∧ (Utils.FileExists (fun _ => 0xFFFFFFFF) (L "gone") = false
      ∧ Utils.DirExists (fun _ => 0xFFFFFFFF) (L "gone") = false) :=
  ⟨⟨(Utils.FileExists_DirExists_by_attributes (fun _ => 0x20) (L "a.png")).1.mpr
      ⟨by decide, by decide⟩, by decide⟩,
   ⟨by decide, by decide⟩,
   (Utils.FileExists_DirExists_by_attributes (fun _ => 0xFFFFFFFF) (L "gone")).2.2.2.2.2.1
      (by decide)⟩

/-! ## `TextureLoader`: `LoadDDS` -/

/-- C6. `LoadDDS` first calls `CreateDDSTextureFromFileEx` with
`SHADER_RESOURCE | RENDER_TARGET`; the call with `SHADER_RESOURCE` alone is made iff
the first fails, and no further creation call is made; the result is null iff both
calls fail or the resource of the successful call does not convert to a 2-D texture;
when the first call succeeds the result is the conversion of its resource, when only
the second succeeds the conversion of the second's. -/
theorem LoadDDS_retries_once_without_render_target (env : DDSEnv) (fileName : WString) :
    (LoadDDS env fileName).2.head?
        = some (.CreateDDSTextureFromFileEx fileName
            (D3D11_BIND_SHADER_RESOURCE ||| D3D11_BIND_RENDER_TARGET))
    ∧ (DDSEvent.CreateDDSTextureFromFileEx fileName D3D11_BIND_SHADER_RESOURCE
          ∈ (LoadDDS env fileName).2 ↔
        (env.CreateDDSTextureFromFileEx fileName
          (D3D11_BIND_SHADER_RESOURCE ||| D3D11_BIND_RENDER_TARGET)).1 < 0)
    ∧ ((LoadDDS env fileName).2.filter (fun e => decide (e ≠ .try_as_ID3D11Texture2D))
        = if (env.CreateDDSTextureFromFileEx fileName
            (D3D11_BIND_SHADER_RESOURCE ||| D3D11_BIND_RENDER_TARGET)).1 < 0 then
            [.CreateDDSTextureFromFileEx fileName
              (D3D11_BIND_SHADER_RESOURCE ||| D3D11_BIND_RENDER_TARGET),
             .CreateDDSTextureFromFileEx fileName D3D11_BIND_SHADER_RESOURCE]
          else
            [.CreateDDSTextureFromFileEx fileName
              (D3D11_BIND_SHADER_RESOURCE ||| D3D11_BIND_RENDER_TARGET)])
    ∧ ((LoadDDS env fileName).1 = none ↔
        ((env.CreateDDSTextureFromFileEx fileName
            (D3D11_BIND_SHADER_RESOURCE ||| D3D11_BIND_RENDER_TARGET)).1 < 0
          ∧ (env.CreateDDSTextureFromFileEx fileName D3D11_BIND_SHADER_RESOURCE).1 < 0)
        ∨ (0 ≤ (env.CreateDDSTextureFromFileEx fileName
            (D3D11_BIND_SHADER_RESOURCE ||| D3D11_BIND_RENDER_TARGET)).1
          ∧ (env.CreateDDSTextureFromFileEx fileName
              (D3D11_BIND_SHADER_RESOURCE ||| D3D11_BIND_RENDER_TARGET)).2.bind
                env.try_as_ID3D11Texture2D = none)
        ∨ ((env.CreateDDSTextureFromFileEx fileName
            (D3D11_BIND_SHADER_RESOURCE ||| D3D11_BIND_RENDER_TARGET)).1 < 0
          ∧ 0 ≤ (env.CreateDDSTextureFromFileEx fileName D3D11_BIND_SHADER_RESOURCE).1
          ∧ (env.CreateDDSTextureFromFileEx fileName D3D11_BIND_SHADER_RESOURCE).2.bind
                env.try_as_ID3D11Texture2D = none))
    ∧ (0 ≤ (env.CreateDDSTextureFromFileEx fileName
            (D3D11_BIND_SHADER_RESOURCE ||| D3D11_BIND_RENDER_TARGET)).1 →
        (LoadDDS env fileName).1
          = (env.CreateDDSTextureFromFileEx fileName
              (D3D11_BIND_SHADER_RESOURCE ||| D3D11_BIND_RENDER_TARGET)).2.bind
                env.try_as_ID3D11Texture2D)
    ∧ ((env.CreateDDSTextureFromFileEx fileName
            (D3D11_BIND_SHADER_RESOURCE ||| D3D11_BIND_RENDER_TARGET)).1 < 0 →
        0 ≤ (env.CreateDDSTextureFromFileEx fileName D3D11_BIND_SHADER_RESOURCE).1 →
        (LoadDDS env fileName).1
          = (env.CreateDDSTextureFromFileEx fileName D3D11_BIND_SHADER_RESOURCE).2.bind
                env.try_as_ID3D11Texture2D) := by
  have hne : (D3D11_BIND_SHADER_RESOURCE ||| D3D11_BIND_RENDER_TARGET)
      ≠ D3D11_BIND_SHADER_RESOURCE := by decide
  by_cases h1 : (env.CreateDDSTextureFromFileEx fileName
      (D3D11_BIND_SHADER_RESOURCE ||| D3D11_BIND_RENDER_TARGET)).1 < 0
  · by_cases h2 : (env.CreateDDSTextureFromFileEx fileName D3D11_BIND_SHADER_RESOURCE).1 < 0
    · have h1' := not_le.mpr h1
      have h2' := not_le.mpr h2
      simp [LoadDDS, FAILED, h1, h2, h1', h2', List.filter]
    · have h1' := not_le.mpr h1
      have h2' := not_lt.mp h2
      simp [LoadDDS, FAILED, h1, h2, h1', h2', List.filter]
  · have h1' := not_lt.mp h1
    simp [LoadDDS, FAILED, h1, h1', hne.symm, List.filter]

/-- Witness for C6: the first call fails with `E_INVALIDARG`, the second succeeds and
its resource `7` converts to the texture `7`. -/
theorem LoadDDS_retries_once_without_render_target_witness :
    LoadDDS sampleDDSEnv (L "a.dds")
    = (some 7,
        [.CreateDDSTextureFromFileEx (L "a.dds") 0x28,
         .CreateDDSTextureFromFileEx (L "a.dds") 0x8,
         .try_as_ID3D11Texture2D]) :=
  Prod.ext
    ((LoadDDS_retries_once_without_render_target sampleDDSEnv (L "a.dds")).2.2.2.2.2
        (by decide) (by decide))
    (by decide)

/-! ## `TextureLoader`: `Load` -/

theorem find_last_of_go_absent (ch : wchar_t) (xs : WString) (i : Nat) (acc : Option Nat)
    (h : ch ∉ xs) : TextureLoader.find_last_of.go ch xs i acc = acc := by
  induction xs generalizing i acc with
  | nil => rfl
  | cons x xs ih =>
    have hx : x ≠ ch := fun e => h (e ▸ List.mem_cons_self x xs)
    have hxs : ch ∉ xs := fun m => h (List.mem_cons_of_mem x m)
    simp [TextureLoader.find_last_of.go, hx, ih _ _ hxs]

theorem find_last_of_go_split (ch : wchar_t) (pre suf : WString) (i : Nat)
    (acc : Option Nat) (h : ch ∉ suf) :
    TextureLoader.find_last_of.go ch (pre ++ ch :: suf) i acc = some (i + pre.length) := by
  induction pre generalizing i acc with
  | nil => simp [TextureLoader.find_last_of.go, find_last_of_go_absent ch suf _ _ h]
  | cons x xs ih =>
    show TextureLoader.find_last_of.go ch (xs ++ ch :: suf) (i + 1) _ = _
    rw [ih, List.length_cons, Nat.add_assoc, Nat.add_comm 1]

theorem find_last_of_absent (ch : wchar_t) (sv : WString) (h : ch ∉ sv) :
    TextureLoader.find_last_of sv ch = none :=
  find_last_of_go_absent ch sv 0 none h

theorem find_last_of_split (ch : wchar_t) (pre suf : WString) (h : ch ∉ suf) :
    TextureLoader.find_last_of (pre ++ ch :: suf) ch = some pre.length := by
  simp [TextureLoader.find_last_of, find_last_of_go_split ch pre suf 0 none h]

theorem substr_after_split (ch : wchar_t) (pre suf : WString) :
    TextureLoader.substr (pre ++ ch :: suf) (pre.length + 1) = suf := by
  simp [TextureLoader.substr]

theorem Load_split (imgEnv : ImgEnv) (ddsEnv : DDSEnv) (pre suf : WString)
    (h : Char.toNat '.' ∉ suf) :
    TextureLoader.Load imgEnv ddsEnv (pre ++ Char.toNat '.' :: suf)
      = match TextureLoader.funcs_find suf with
        | none => (none, [])
        | some it => TextureLoader.invoke imgEnv ddsEnv it.2 (pre ++ Char.toNat '.' :: suf) := by
  simp only [TextureLoader.Load, find_last_of_split _ pre suf h, substr_after_split]

/-- C3. `Load` returns null and invokes no loader when the file name has no `.` or
the text after its last `.` is none of `bmp`, `jpg`, `jpeg`, `png`, `tif`, `tiff`,
`dds`; for the first six it invokes `LoadImg`, for `dds` it invokes `LoadDDS`, once, on
the unchanged file name, and returns exactly what that loader returns. -/
theorem TextureLoader.Load_dispatches_on_suffix (imgEnv : ImgEnv) (ddsEnv : DDSEnv)
    (fileName : WString) :
    (Char.toNat '.' ∉ fileName → TextureLoader.Load imgEnv ddsEnv fileName = (none, []))
    ∧ (∀ pre suf : WString, fileName = pre ++ Char.toNat '.' :: suf → Char.toNat '.' ∉ suf →
        (suf ∉ [L "bmp", L "jpg", L "jpeg", L "png", L "tif", L "tiff", L "dds"] →
          TextureLoader.Load imgEnv ddsEnv fileName = (none, []))
        ∧ (suf ∈ [L "bmp", L "jpg", L "jpeg", L "png", L "tif", L "tiff"] →
          TextureLoader.Load imgEnv ddsEnv fileName
            = ((LoadImg imgEnv fileName).1,
                [.LoadImg fileName (LoadImg imgEnv fileName).2]))
        ∧ (suf = L "dds" →
          TextureLoader.Load imgEnv ddsEnv fileName
            = ((LoadDDS ddsEnv fileName).1,
                [.LoadDDS fileName (LoadDDS ddsEnv fileName).2]))) := by
  constructor
  · intro h
    simp only [TextureLoader.Load, find_last_of_absent _ fileName h]
  · intro pre suf hname hsuf
    subst hname
    rw [Load_split imgEnv ddsEnv pre suf hsuf]
    refine ⟨?_, ?_, ?_⟩
    · intro hnot
      simp only [List.mem_cons, List.mem_singleton, List.not_mem_nil, or_false, not_or] at hnot
      obtain ⟨h1, h2, h3, h4, h5, h6, h7⟩ := hnot
      have hfind : TextureLoader.funcs_find suf = none := by
        simp [TextureLoader.funcs_find, TextureLoader.funcs, List.find?, Ne.symm h1,
          Ne.symm h2, Ne.symm h3, Ne.symm h4, Ne.symm h5, Ne.symm h6, Ne.symm h7]
      rw [hfind]
    · intro hin
      simp only [List.mem_cons, List.mem_singleton, List.not_mem_nil, or_false] at hin
      rcases hin with h | h | h | h | h | h <;> subst h <;> rfl
    · intro h
      subst h
      rfl

/-- Witness for C3: `shot.png` goes to `LoadImg`, `shot.dds` to `LoadDDS`, while
`shot.PNG`, `shot.` and `shot` load nothing. -/
theorem TextureLoader.Load_dispatches_on_suffix_witness :
    TextureLoader.Load sampleImgEnv sampleDDSEnv (L "shot.png")
        = ((LoadImg sampleImgEnv (L "shot.png")).1,
            [.LoadImg (L "shot.png") (LoadImg sampleImgEnv (L "shot.png")).2])
    ∧ TextureLoader.Load sampleImgEnv sampleDDSEnv (L "shot.dds")
        = ((LoadDDS sampleDDSEnv (L "shot.dds")).1,
            [.LoadDDS (L "shot.dds") (LoadDDS sampleDDSEnv (L "shot.dds")).2])
    ∧ TextureLoader.Load sampleImgEnv sampleDDSEnv (L "shot.PNG") = (none, [])
    ∧ TextureLoader.Load sampleImgEnv sampleDDSEnv (L "shot.") = (none, [])
    ∧ TextureLoader.Load sampleImgEnv sampleDDSEnv (L "shot") = (none, []) :=
  ⟨((TextureLoader.Load_dispatches_on_suffix sampleImgEnv sampleDDSEnv (L "shot.png")).2
      (L "shot") (L "png") (by decide) (by decide)).2.1 (by decide),
   ((TextureLoader.Load_dispatches_on_suffix sampleImgEnv sampleDDSEnv (L "shot.dds")).2
      (L "shot") (L "dds") (by decide) (by decide)).2.2 rfl,
   ((TextureLoader.Load_dispatches_on_suffix sampleImgEnv sampleDDSEnv (L "shot.PNG")).2
      (L "shot") (L "PNG") (by decide) (by decide)).1 (by decide),
   ((TextureLoader.Load_dispatches_on_suffix sampleImgEnv sampleDDSEnv (L "shot.")).2
      (L "shot") (L "") (by decide) (by decide)).1 (by decide),
   (TextureLoader.Load_dispatches_on_suffix sampleImgEnv sampleDDSEnv (L "shot")).1 (by decide)⟩

/-! ## `TextureLoader`: `LoadImg` -/

theorem sizeOverLimit_eq_true_iff (fl : D3D_FEATURE_LEVEL) (w h : UINT) :
    LoadImg.sizeOverLimit fl w h = true ↔
      ((fl = D3D_FEATURE_LEVEL_10_0 ∨ fl = D3D_FEATURE_LEVEL_10_1) ∧ (w > 8192 ∨ h > 8192))
      ∨ ((fl ≠ D3D_FEATURE_LEVEL_10_0 ∧ fl ≠ D3D_FEATURE_LEVEL_10_1)
          ∧ (w > 16384 ∨ h > 16384)) := by
  unfold LoadImg.sizeOverLimit D3D11_REQ_TEXTURE2D_U_OR_V_DIMENSION
  by_cases hfl : fl = D3D_FEATURE_LEVEL_10_0 ∨ fl = D3D_FEATURE_LEVEL_10_1
  · rw [if_pos hfl]
    simp only [Bool.or_eq_true, decide_eq_true_eq]
    constructor
    · intro hw
      exact Or.inl ⟨hfl, hw⟩
    · rintro (⟨_, hw⟩ | ⟨⟨h0, h1⟩, _⟩)
      · exact hw
      · exact absurd hfl (not_or.mpr ⟨h0, h1⟩)
  · rw [if_neg hfl]
    simp only [Bool.or_eq_true, decide_eq_true_eq]
    constructor
    · intro hw
      exact Or.inr ⟨not_or.mp hfl, hw⟩
    · rintro (⟨h0, _⟩ | ⟨_, hw⟩)
      · exact absurd h0 hfl
      · exact hw

theorem sizeOverLimit_eq_false_iff (fl : D3D_FEATURE_LEVEL) (w h : UINT) :
    LoadImg.sizeOverLimit fl w h = false ↔
      ((fl = D3D_FEATURE_LEVEL_10_0 ∨ fl = D3D_FEATURE_LEVEL_10_1) ∧ w ≤ 8192 ∧ h ≤ 8192)
      ∨ ((fl ≠ D3D_FEATURE_LEVEL_10_0 ∧ fl ≠ D3D_FEATURE_LEVEL_10_1)
          ∧ w ≤ 16384 ∧ h ≤ 16384) := by
  unfold LoadImg.sizeOverLimit D3D11_REQ_TEXTURE2D_U_OR_V_DIMENSION
  by_cases hfl : fl = D3D_FEATURE_LEVEL_10_0 ∨ fl = D3D_FEATURE_LEVEL_10_1
  · rw [if_pos hfl]
    simp only [Bool.or_eq_false_iff, decide_eq_false_iff_not, not_lt, gt_iff_lt]
    constructor
    · intro hw
      exact Or.inl ⟨hfl, hw⟩
    · rintro (⟨_, hw⟩ | ⟨⟨h0, h1⟩, _⟩)
      · exact hw
      · exact absurd hfl (not_or.mpr ⟨h0, h1⟩)
  · rw [if_neg hfl]
    simp only [Bool.or_eq_false_iff, decide_eq_false_iff_not, not_lt, gt_iff_lt]
    constructor
    · intro hw
      exact Or.inr ⟨not_or.mp hfl, hw⟩
    · rintro (⟨h0, _⟩ | ⟨_, hw⟩)
      · exact absurd h0 hfl
      · exact hw

/-- Case analysis of a run of `LoadImg`: it fails at or before `GetSize`, or it is
rejected by the size check, or `CopyPixels` fails, or it reaches `CreateTexture2D`. -/
theorem LoadImg_elim (env : ImgEnv) (fileName : WString)
    (P : Option ID3D11Texture2D × List ImgEvent → Prop)
    (hearly : ∀ tr : List ImgEvent,
      (∀ e ∈ tr, (∀ n, e ≠ .newBYTE n) ∧ (∀ st n, e ≠ .CopyPixels st n)
        ∧ (∀ d p, e ≠ .CreateTexture2D d p)) →
      (ImgEvent.GetSize ∈ tr → FAILED env.GetSize.1 = true) → P (none, tr))
    (hover : ∀ tr : List ImgEvent,
      (∀ e ∈ tr, (∀ n, e ≠ .newBYTE n) ∧ (∀ st n, e ≠ .CopyPixels st n)
        ∧ (∀ d p, e ≠ .CreateTexture2D d p)) →
      LoadImg.sizeOverLimit env.GetFeatureLevel env.GetSize.2.1 env.GetSize.2.2 = true →
      P (none, tr))
    (hcopy : ∀ tr : List ImgEvent,
      (∀ e ∈ tr, (∀ n, e ≠ .newBYTE n) ∧ (∀ st n, e ≠ .CopyPixels st n)
        ∧ (∀ d p, e ≠ .CreateTexture2D d p)) →
      ImgEvent.GetFeatureLevel ∈ tr →
      LoadImg.sizeOverLimit env.GetFeatureLevel env.GetSize.2.1 env.GetSize.2.2 = false →
      P (none, tr
        ++ [.newBYTE (LoadImg.size (LoadImg.stride env.GetSize.2.1
            (LoadImg.useFloatFormat env.GetBitsPerPixel.2 env.GetNumericRepresentation.2))
            env.GetSize.2.2)]
        ++ [.CopyPixels (LoadImg.stride env.GetSize.2.1
            (LoadImg.useFloatFormat env.GetBitsPerPixel.2 env.GetNumericRepresentation.2))
          (LoadImg.size (LoadImg.stride env.GetSize.2.1
            (LoadImg.useFloatFormat env.GetBitsPerPixel.2 env.GetNumericRepresentation.2))
            env.GetSize.2.2)]))
    (hcreate : ∀ (tr : List ImgEvent) (res : Option ID3D11Texture2D),
      (∀ e ∈ tr, (∀ n, e ≠ .newBYTE n) ∧ (∀ st n, e ≠ .CopyPixels st n)
        ∧ (∀ d p, e ≠ .CreateTexture2D d p)) →
      ImgEvent.GetFeatureLevel ∈ tr →
      LoadImg.sizeOverLimit env.GetFeatureLevel env.GetSize.2.1 env.GetSize.2.2 = false →
      P (res, tr
        ++ [.newBYTE (LoadImg.size (LoadImg.stride env.GetSize.2.1
            (LoadImg.useFloatFormat env.GetBitsPerPixel.2 env.GetNumericRepresentation.2))
            env.GetSize.2.2)]
        ++ [.CopyPixels (LoadImg.stride env.GetSize.2.1
            (LoadImg.useFloatFormat env.GetBitsPerPixel.2 env.GetNumericRepresentation.2))
          (LoadImg.size (LoadImg.stride env.GetSize.2.1
            (LoadImg.useFloatFormat env.GetBitsPerPixel.2 env.GetNumericRepresentation.2))
            env.GetSize.2.2)]
        ++ [.CreateTexture2D
          { Width := env.GetSize.2.1
            Height := env.GetSize.2.2
            MipLevels := 1
            ArraySize := 1
            Format :=
              if LoadImg.useFloatFormat env.GetBitsPerPixel.2 env.GetNumericRepresentation.2
              then DXGI_FORMAT.DXGI_FORMAT_R16G16B16A16_FLOAT
              else DXGI_FORMAT.DXGI_FORMAT_B8G8R8A8_UNORM
            SampleDesc_Count := 1
            SampleDesc_Quality := 0
            Usage := D3D11_USAGE_DEFAULT
            BindFlags := D3D11_BIND_SHADER_RESOURCE ||| D3D11_BIND_RENDER_TARGET
            CPUAccessFlags := 0
            MiscFlags := 0 }
          (LoadImg.stride env.GetSize.2.1
            (LoadImg.useFloatFormat env.GetBitsPerPixel.2 env.GetNumericRepresentation.2))])) :
    P (LoadImg env fileName) := by
  unfold LoadImg
  by_cases h1 : (!env.GetWICImageFactory) = true
  · rw [if_pos h1]; exact hearly _ (by simp) (by simp)
  rw [if_neg h1]
  by_cases h2 : FAILED (env.CreateDecoderFromFilename fileName) = true
  · rw [if_pos h2]; exact hearly _ (by simp) (by simp)
  rw [if_neg h2]
  by_cases h3 : FAILED env.GetFrame = true
  · rw [if_pos h3]; exact hearly _ (by simp) (by simp)
  rw [if_neg h3]
  by_cases h4 : FAILED env.GetPixelFormat = true
  · rw [if_pos h4]; exact hearly _ (by simp) (by simp)
  rw [if_neg h4]
  by_cases h5 : FAILED env.CreateComponentInfo = true
  · rw [if_pos h5]; exact hearly _ (by simp) (by simp)
  rw [if_neg h5]
  by_cases h6 : (!env.try_as_IWICPixelFormatInfo2) = true
  · rw [if_pos h6]; exact hearly _ (by simp) (by simp)
  rw [if_neg h6]
  by_cases h7 : FAILED env.GetBitsPerPixel.1 = true
  · rw [if_pos h7]; exact hearly _ (by simp) (by simp)
  rw [if_neg h7]
  by_cases h8 : FAILED env.GetNumericRepresentation.1 = true
  · rw [if_pos h8]; exact hearly _ (by simp) (by simp)
  rw [if_neg h8]
  by_cases h9 : FAILED env.CreateFormatConverter = true
  · rw [if_pos h9]; exact hearly _ (by simp) (by simp)
  rw [if_neg h9]
  by_cases h10 : FAILED (env.Initialize
      (if LoadImg.useFloatFormat env.GetBitsPerPixel.2 env.GetNumericRepresentation.2 = true
        then WICPixelFormatGUID.GUID_WICPixelFormat64bppRGBAHalf
        else WICPixelFormatGUID.GUID_WICPixelFormat32bppBGRA)) = true
  · rw [if_pos h10]; exact hearly _ (by simp) (by simp)
  rw [if_neg h10]
  by_cases h11 : FAILED env.GetSize.1 = true
  · rw [if_pos h11]; exact hearly _ (by simp) (fun _ => h11)
  rw [if_neg h11]
  by_cases h12 : LoadImg.sizeOverLimit env.GetFeatureLevel env.GetSize.2.1 env.GetSize.2.2 = true
  · rw [if_pos h12]; exact hover _ (by simp) h12
  rw [if_neg h12]
  have h12' := Bool.eq_false_iff.mpr h12
  by_cases h13 : FAILED (env.CopyPixels
      (LoadImg.stride env.GetSize.2.1
        (LoadImg.useFloatFormat env.GetBitsPerPixel.2 env.GetNumericRepresentation.2))
      (LoadImg.size (LoadImg.stride env.GetSize.2.1
        (LoadImg.useFloatFormat env.GetBitsPerPixel.2 env.GetNumericRepresentation.2))
        env.GetSize.2.2)) = true
  · rw [if_pos h13]; exact hcopy _ (by simp) (by simp) h12'
  rw [if_neg h13]
  have hite : ∀ (c : Prop) [Decidable c] (a b : Option ID3D11Texture2D × List ImgEvent),
      P a → P b → P (if c then a else b) := by
    intro c _ a b ha hb
    by_cases hc : c
    · rw [if_pos hc]; exact ha
    · rw [if_neg hc]; exact hb
  dsimp only
  apply hite
  · exact hcreate _ _ (by simp) (by simp) h12'
  · exact hcreate _ _ (by simp) (by simp) h12'


theorem append_three {α : Type} (tr : List α) (a b c : α) :
    tr ++ [a] ++ [b] ++ [c] = tr ++ a :: [b, c] := by
  simp

/-- C5. When the decoded size is over the limit of the device (8192 on feature levels
10_0 and 10_1, `D3D11_REQ_TEXTURE2D_U_OR_V_DIMENSION = 16384` on every other level),
`LoadImg` returns null and its run contains no buffer allocation, no `CopyPixels` and
no `CreateTexture2D`; when both dimensions are at or below the limit and the run got
as far as a successful `GetSize`, it goes on to allocate the buffer and copy pixels;
and in every run the allocation comes after the feature level was read. -/
theorem LoadImg_checks_size_limit_before_allocating (env : ImgEnv) (fileName : WString) :
    ((((env.GetFeatureLevel = D3D_FEATURE_LEVEL_10_0
            ∨ env.GetFeatureLevel = D3D_FEATURE_LEVEL_10_1)
          ∧ (env.GetSize.2.1 > 8192 ∨ env.GetSize.2.2 > 8192))
        ∨ ((env.GetFeatureLevel ≠ D3D_FEATURE_LEVEL_10_0
            ∧ env.GetFeatureLevel ≠ D3D_FEATURE_LEVEL_10_1)
          ∧ (env.GetSize.2.1 > 16384 ∨ env.GetSize.2.2 > 16384))) →
      (LoadImg env fileName).1 = none
        ∧ ∀ e ∈ (LoadImg env fileName).2,
            (∀ n, e ≠ .newBYTE n) ∧ (∀ st n, e ≠ .CopyPixels st n)
              ∧ (∀ d p, e ≠ .CreateTexture2D d p))
    ∧ ((((env.GetFeatureLevel = D3D_FEATURE_LEVEL_10_0
            ∨ env.GetFeatureLevel = D3D_FEATURE_LEVEL_10_1)
          ∧ env.GetSize.2.1 ≤ 8192 ∧ env.GetSize.2.2 ≤ 8192)
        ∨ ((env.GetFeatureLevel ≠ D3D_FEATURE_LEVEL_10_0
            ∧ env.GetFeatureLevel ≠ D3D_FEATURE_LEVEL_10_1)
          ∧ env.GetSize.2.1 ≤ 16384 ∧ env.GetSize.2.2 ≤ 16384)) →
      ImgEvent.GetSize ∈ (LoadImg env fileName).2 → 0 ≤ env.GetSize.1 →
      ImgEvent.newBYTE
          (LoadImg.size (LoadImg.stride env.GetSize.2.1
            (LoadImg.useFloatFormat env.GetBitsPerPixel.2 env.GetNumericRepresentation.2))
            env.GetSize.2.2) ∈ (LoadImg env fileName).2
        ∧ ImgEvent.CopyPixels
          (LoadImg.stride env.GetSize.2.1
            (LoadImg.useFloatFormat env.GetBitsPerPixel.2 env.GetNumericRepresentation.2))
          (LoadImg.size (LoadImg.stride env.GetSize.2.1
            (LoadImg.useFloatFormat env.GetBitsPerPixel.2 env.GetNumericRepresentation.2))
            env.GetSize.2.2) ∈ (LoadImg env fileName).2)
    ∧ (∀ n, ImgEvent.newBYTE n ∈ (LoadImg env fileName).2 →
        ∃ pre post, (LoadImg env fileName).2 = pre ++ ImgEvent.newBYTE n :: post
          ∧ ImgEvent.GetFeatureLevel ∈ pre ∧ ∀ m, ImgEvent.newBYTE m ∉ pre)
    ∧ D3D11_REQ_TEXTURE2D_U_OR_V_DIMENSION = 16384 := by
  refine ⟨?_, ?_, ?_, rfl⟩
  · intro hbig
    have hlim := (sizeOverLimit_eq_true_iff _ _ _).mpr hbig
    refine LoadImg_elim env fileName
      (fun r => r.1 = none ∧ ∀ e ∈ r.2, (∀ n, e ≠ .newBYTE n) ∧ (∀ st n, e ≠ .CopyPixels st n)
        ∧ (∀ d p, e ≠ .CreateTexture2D d p)) ?_ ?_ ?_ ?_
    · intro tr htr _
      exact ⟨rfl, htr⟩
    · intro tr htr _
      exact ⟨rfl, htr⟩
    · intro tr _ _ hf
      rw [hlim] at hf
      cases hf
    · intro tr res _ _ hf
      rw [hlim] at hf
      cases hf
  · intro hfit hsize hhr
    have hlim := (sizeOverLimit_eq_false_iff _ _ _).mpr hfit
    have hnf : FAILED env.GetSize.1 ≠ true := by simp [FAILED, hhr]
    revert hsize
    refine LoadImg_elim env fileName
      (fun r => ImgEvent.GetSize ∈ r.2 →
        ImgEvent.newBYTE
          (LoadImg.size (LoadImg.stride env.GetSize.2.1
            (LoadImg.useFloatFormat env.GetBitsPerPixel.2 env.GetNumericRepresentation.2))
            env.GetSize.2.2) ∈ r.2
        ∧ ImgEvent.CopyPixels
          (LoadImg.stride env.GetSize.2.1
            (LoadImg.useFloatFormat env.GetBitsPerPixel.2 env.GetNumericRepresentation.2))
          (LoadImg.size (LoadImg.stride env.GetSize.2.1
            (LoadImg.useFloatFormat env.GetBitsPerPixel.2 env.GetNumericRepresentation.2))
            env.GetSize.2.2) ∈ r.2) ?_ ?_ ?_ ?_
    · intro tr _ hs hmem
      exact absurd (hs hmem) hnf
    · intro tr _ ht
      rw [hlim] at ht
      cases ht
    · intro tr _ _ _ _
      exact ⟨by simp, by simp⟩
    · intro tr res _ _ _ _
      exact ⟨by simp, by simp⟩
  · refine LoadImg_elim env fileName
      (fun r => ∀ n, ImgEvent.newBYTE n ∈ r.2 →
        ∃ pre post, r.2 = pre ++ ImgEvent.newBYTE n :: post
          ∧ ImgEvent.GetFeatureLevel ∈ pre ∧ ∀ m, ImgEvent.newBYTE m ∉ pre) ?_ ?_ ?_ ?_
    · intro tr htr _ n hn
      exact absurd rfl ((htr _ hn).1 n)
    · intro tr htr _ n hn
      exact absurd rfl ((htr _ hn).1 n)
    · intro tr htr hfl _ n hn
      have hnot : ∀ m, ImgEvent.newBYTE m ∉ tr := fun m hm => (htr _ hm).1 m rfl
      simp only [List.mem_append, List.mem_singleton, hnot, false_or, or_false,
        ImgEvent.newBYTE.injEq, reduceCtorEq] at hn
      subst hn
      exact ⟨tr, _, List.append_assoc _ _ _, hfl, hnot⟩
    · intro tr res htr hfl _ n hn
      have hnot : ∀ m, ImgEvent.newBYTE m ∉ tr := fun m hm => (htr _ hm).1 m rfl
      simp only [List.mem_append, List.mem_singleton, hnot, false_or, or_false,
        ImgEvent.newBYTE.injEq, reduceCtorEq] at hn
      subst hn
      exact ⟨tr, _, append_three tr _ _ _, hfl, hnot⟩


/-- Witness for C5: on feature level 10_0 a width of 8193 is rejected, while 8192 x 8192
goes on to allocate `8192 * 8192 * 4` bytes. -/
theorem LoadImg_checks_size_limit_before_allocating_witness :
    (LoadImg (sampleImgEnvOfSize D3D_FEATURE_LEVEL_10_0 8193 100) (L "a.png")).1 = none
    ∧ ImgEvent.newBYTE 268435456
        ∈ (LoadImg (sampleImgEnvOfSize D3D_FEATURE_LEVEL_10_0 8192 8192) (L "a.png")).2 :=
  ⟨((LoadImg_checks_size_limit_before_allocating
        (sampleImgEnvOfSize D3D_FEATURE_LEVEL_10_0 8193 100) (L "a.png")).1
      (Or.inl ⟨Or.inl rfl, Or.inl (by decide)⟩)).1,
   ((LoadImg_checks_size_limit_before_allocating
        (sampleImgEnvOfSize D3D_FEATURE_LEVEL_10_0 8192 8192) (L "a.png")).2.1
      (Or.inl ⟨Or.inl rfl, by decide, by decide⟩) (by decide) (by decide)).1⟩

theorem stride_size_exact (w h : Nat) (uf : Bool) (hw : w ≤ 16384) (hh : h ≤ 16384) :
    LoadImg.stride w uf = w * (if uf then 8 else 4)
      ∧ LoadImg.size (LoadImg.stride w uf) h = w * (if uf then 8 else 4) * h
      ∧ w * (if uf then 8 else 4) * h ≤ 2 ^ 31 := by
  have hb : (if uf then 8 else 4 : Nat) ≤ 8 := by cases uf <;> simp
  have h1 : w * (if uf then 8 else 4) ≤ 16384 * 8 := Nat.mul_le_mul hw hb
  have h2 : w * (if uf then 8 else 4) * h ≤ 16384 * 8 * 16384 := Nat.mul_le_mul h1 hh
  have hs : LoadImg.stride w uf = w * (if uf then 8 else 4) := by
    unfold LoadImg.stride
    exact Nat.mod_eq_of_lt (Nat.lt_of_le_of_lt h1 (by norm_num))
  refine ⟨hs, ?_, Nat.le_trans h2 (by norm_num)⟩
  rw [hs]
  unfold LoadImg.size
  exact Nat.mod_eq_of_lt (Nat.lt_of_le_of_lt h2 (by norm_num))

/-- C8. A size that passes the size check at any feature level has both dimensions
at most 16384; for such a size and either pixel format the 32-bit `stride` and `size`
equal the exact products, `size = width * height * bytesPerPixel <= 2^31 < 2^32`; and
in every run of `LoadImg` the buffer allocated and handed to `CopyPixels` and
`CreateTexture2D` has exactly `height` rows of `stride = width * bytesPerPixel` bytes. -/
theorem LoadImg_buffer_size_never_wraps (env : ImgEnv) (fileName : WString) :
    (∀ (fl : D3D_FEATURE_LEVEL) (w h : UINT), LoadImg.sizeOverLimit fl w h = false →
        w ≤ 16384 ∧ h ≤ 16384)
    ∧ (∀ (w h : UINT) (useFloatFormat : Bool), w ≤ 16384 → h ≤ 16384 →
        LoadImg.stride w useFloatFormat = w * (if useFloatFormat then 8 else 4)
        ∧ LoadImg.size (LoadImg.stride w useFloatFormat) h
            = LoadImg.stride w useFloatFormat * h
        ∧ LoadImg.size (LoadImg.stride w useFloatFormat) h
            = w * h * (if useFloatFormat then 8 else 4)
        ∧ LoadImg.size (LoadImg.stride w useFloatFormat) h ≤ 2 ^ 31
        ∧ 2 ^ 31 < 2 ^ 32)
    ∧ (∀ e ∈ (LoadImg env fileName).2,
        (∀ n, e = .newBYTE n →
          n = env.GetSize.2.1 * env.GetSize.2.2
                * (if LoadImg.useFloatFormat env.GetBitsPerPixel.2
                    env.GetNumericRepresentation.2 then 8 else 4)
            ∧ n ≤ 2 ^ 31)
        ∧ (∀ st n, e = .CopyPixels st n →
          st = env.GetSize.2.1
                * (if LoadImg.useFloatFormat env.GetBitsPerPixel.2
                    env.GetNumericRepresentation.2 then 8 else 4)
            ∧ n = st * env.GetSize.2.2
            ∧ .newBYTE n ∈ (LoadImg env fileName).2)
        ∧ (∀ d p, e = .CreateTexture2D d p →
          d.Width = env.GetSize.2.1 ∧ d.Height = env.GetSize.2.2
            ∧ p = env.GetSize.2.1
                * (if LoadImg.useFloatFormat env.GetBitsPerPixel.2
                    env.GetNumericRepresentation.2 then 8 else 4))) := by
  have hdim : ∀ (fl : D3D_FEATURE_LEVEL) (w h : UINT),
      LoadImg.sizeOverLimit fl w h = false → w ≤ 16384 ∧ h ≤ 16384 := by
    intro fl w h hlim
    rcases (sizeOverLimit_eq_false_iff fl w h).mp hlim with ⟨_, hw, hh⟩ | ⟨_, hw, hh⟩
    · exact ⟨Nat.le_trans hw (by decide), Nat.le_trans hh (by decide)⟩
    · exact ⟨hw, hh⟩
  refine ⟨hdim, ?_, ?_⟩
  · intro w h uf hw hh
    obtain ⟨h1, h2, h3⟩ := stride_size_exact w h uf hw hh
    refine ⟨h1, ?_, ?_, ?_, by decide⟩
    · rw [h2, h1]
    · rw [h2, Nat.mul_right_comm]
    · rw [h2]; exact h3
  · refine LoadImg_elim env fileName
      (fun r => ∀ e ∈ r.2,
        (∀ n, e = .newBYTE n →
          n = env.GetSize.2.1 * env.GetSize.2.2
                * (if LoadImg.useFloatFormat env.GetBitsPerPixel.2
                    env.GetNumericRepresentation.2 then 8 else 4)
            ∧ n ≤ 2 ^ 31)
        ∧ (∀ st n, e = .CopyPixels st n →
          st = env.GetSize.2.1
                * (if LoadImg.useFloatFormat env.GetBitsPerPixel.2
                    env.GetNumericRepresentation.2 then 8 else 4)
            ∧ n = st * env.GetSize.2.2
            ∧ .newBYTE n ∈ r.2)
        ∧ (∀ d p, e = .CreateTexture2D d p →
          d.Width = env.GetSize.2.1 ∧ d.Height = env.GetSize.2.2
            ∧ p = env.GetSize.2.1
                * (if LoadImg.useFloatFormat env.GetBitsPerPixel.2
                    env.GetNumericRepresentation.2 then 8 else 4))) ?_ ?_ ?_ ?_
    · intro tr htr _ e he
      exact ⟨fun n hn => absurd hn ((htr e he).1 n),
        fun st n hn => absurd hn ((htr e he).2.1 st n),
        fun d p hn => absurd hn ((htr e he).2.2 d p)⟩
    · intro tr htr _ e he
      exact ⟨fun n hn => absurd hn ((htr e he).1 n),
        fun st n hn => absurd hn ((htr e he).2.1 st n),
        fun d p hn => absurd hn ((htr e he).2.2 d p)⟩
    · intro tr htr _ hlim e he
      obtain ⟨hw, hh⟩ := hdim _ _ _ hlim
      obtain ⟨h1, h2, h3⟩ := stride_size_exact _ _
        (LoadImg.useFloatFormat env.GetBitsPerPixel.2 env.GetNumericRepresentation.2) hw hh
      simp only [List.mem_append, List.mem_singleton] at he
      rcases he with (he | he) | he
      · exact ⟨fun n hn => absurd hn ((htr e he).1 n),
          fun st n hn => absurd hn ((htr e he).2.1 st n),
          fun d p hn => absurd hn ((htr e he).2.2 d p)⟩
      · subst he
        refine ⟨?_, fun st n hn => (by cases hn), fun d p hn => (by cases hn)⟩
        intro n hn
        injection hn with hn
        subst hn
        rw [h2]
        exact ⟨Nat.mul_right_comm _ _ _, h3⟩
      · subst he
        refine ⟨fun n hn => (by cases hn), ?_, fun d p hn => (by cases hn)⟩
        intro st n hn
        injection hn with hst hn
        subst hst hn
        refine ⟨h1, ?_, by simp⟩
        rw [h2, h1]
    · intro tr res htr _ hlim e he
      obtain ⟨hw, hh⟩ := hdim _ _ _ hlim
      obtain ⟨h1, h2, h3⟩ := stride_size_exact _ _
        (LoadImg.useFloatFormat env.GetBitsPerPixel.2 env.GetNumericRepresentation.2) hw hh
      simp only [List.mem_append, List.mem_singleton] at he
      rcases he with ((he | he) | he) | he
      · exact ⟨fun n hn => absurd hn ((htr e he).1 n),
          fun st n hn => absurd hn ((htr e he).2.1 st n),
          fun d p hn => absurd hn ((htr e he).2.2 d p)⟩
      · subst he
        refine ⟨?_, fun st n hn => (by cases hn), fun d p hn => (by cases hn)⟩
        intro n hn
        injection hn with hn
        subst hn
        rw [h2]
        exact ⟨Nat.mul_right_comm _ _ _, h3⟩
      · subst he
        refine ⟨fun n hn => (by cases hn), ?_, fun d p hn => (by cases hn)⟩
        intro st n hn
        injection hn with hst hn
        subst hst hn
        refine ⟨h1, ?_, by simp⟩
        rw [h2, h1]
      · subst he
        refine ⟨fun n hn => (by cases hn), fun st n hn => (by cases hn), ?_⟩
        intro d p hn
        injection hn with hd hp
        subst hd hp
        exact ⟨rfl, rfl, h1⟩

/-- Witness for C8: a 16384 x 16384 image in a 64-bit float format on a feature level
11_0 device is allocated exactly `2^31` bytes. -/
theorem LoadImg_buffer_size_never_wraps_witness :
    ImgEvent.newBYTE 2147483648
        ∈ (LoadImg { sampleImgEnvOfSize 0xb000 16384 16384 with GetBitsPerPixel := (0, 64) }
            (L "a.png")).2
    ∧ (2147483648 : Nat) = 16384 * 16384 * 8 ∧ (2147483648 : Nat) ≤ 2 ^ 31 :=
  ⟨by decide,
   ((LoadImg_buffer_size_never_wraps
      { sampleImgEnvOfSize 0xb000 16384 16384 with GetBitsPerPixel := (0, 64) }
      (L "a.png")).2.2 (ImgEvent.newBYTE 2147483648) (by decide)).1 2147483648 rfl⟩

end Magpie
